import Mathlib

/-!
Verification development for the w8bh GPS-clock sketches
(GPS_CLOCK_single.ino, GPS_CLOCK_plus.ino, and the multi-screen
variant).  The sketches' global state and the routines with decision
logic are shallowly embedded as Lean definitions; machine integers are
modelled by Nat/Int (values stay far below 2^31 in every statement
below), `float` arithmetic of the grid-square calculator is modelled by
exact rational arithmetic, and the TFT display is modelled as a list of
emitted draw calls (text/number/rectangle primitives; pixel coordinates,
fonts and text colors are display-collaborator details that no claim
depends on, so the draw constructors carry only the drawn content and,
for rectangles, the fill color).
-/

-- ==================== display model ====================

/-- TFT_eSPI 16-bit color constants used by the sketches. -/
def TFT_BLACK : Nat := 0x0000
def TFT_GREEN : Nat := 0x07E0
def TFT_ORANGE : Nat := 0xFDA0
def TFT_RED : Nat := 0xF800
def TFT_BLUE : Nat := 0x001F

/-- One emitted draw call: a character, a number, a string, or a filled
rectangle (plain or rounded) with its fill color. -/
inductive Draw where
  | ch (c : Char)
  | num (n : Nat)
  | str (s : String)
  | fillRect (color : Nat)
  | fillRoundRect (color : Nat)
deriving DecidableEq, Repr

-- ==================== touch regions ====================

/-- The `region` struct of the sketches: a rectangle with left `x`,
top `y`, width `w` (right = x+w) and height `h` (bottom = y+h). -/
structure Region where
  x : Int
  y : Int
  w : Int
  h : Int

/-- `inRegion` (identical in GPS_CLOCK_single.ino and the multi-screen
variant): false when the x coordinate is out of bounds, false when the
y coordinate is out of bounds, true otherwise. -/
def inRegion (b : Region) (x y : Int) : Bool :=
  if (x < b.x) || (x > (b.x + b.w)) then false
  else if (y < b.y) || (y > (b.y + b.h)) then false
  else true

-- ==================== TimeLib model ====================

/-- TimeLib's LEAP_YEAR macro, on the offset-from-1970 year. -/
def leapYear (yr : Nat) : Bool :=
  (1970 + yr) % 4 == 0 && ((1970 + yr) % 100 != 0 || (1970 + yr) % 400 == 0)

/-- TimeLib's monthDays table (non-leap February). -/
def monthDays : List Nat := [31, 28, 31, 30, 31, 30, 31, 31, 30, 31, 30, 31]

/-- TimeLib `makeTime` after `setTime`'s year normalisation: seconds
since the 1970 epoch of (hour, minute, second, day, month, year), the
decoded field values being small non-negative integers. -/
def makeTime (h m s d mo y : Nat) : Nat :=
  let yr := if y > 99 then y - 1970 else y + 30
  let leapDays := ((List.range yr).filter (fun i => leapYear i)).length
  let monthSecs := ((List.range (mo - 1)).map (fun j =>
    if j + 1 == 2 && leapYear yr then 86400 * 29
    else 86400 * (monthDays.getD j 0))).sum
  yr * (86400 * 365) + leapDays * 86400 + monthSecs
    + (d - 1) * 86400 + h * 3600 + m * 60 + s

/-- Year extraction of TimeLib `breakTime`: starting from year offset
`y` with `days` whole days remaining, consume whole years while they
fit.  The fuel bounds the loop (each step consumes at least 365 days,
so `days + 1` steps always suffice). -/
def findYear (fuel y days : Nat) : Nat × Nat :=
  match fuel with
  | 0 => (y, days)
  | fuel + 1 =>
    let len := if leapYear y then 366 else 365
    if len ≤ days then findYear fuel (y + 1) (days - len) else (y, days)

/-- Month extraction of TimeLib `breakTime`: consume whole months of the
(leap-aware) month lengths. -/
def findMonth (leap : Bool) (fuel mo days : Nat) : Nat × Nat :=
  match fuel with
  | 0 => (mo, days)
  | fuel + 1 =>
    let len := if mo == 1 then (if leap then 29 else 28) else monthDays.getD mo 0
    if len ≤ days then findMonth leap fuel (mo + 1) (days - len) else (mo, days)

/-- TimeLib `second()` of an instant. -/
def secondOf (t : Nat) : Nat := t % 60

/-- TimeLib `minute()` of an instant. -/
def minuteOf (t : Nat) : Nat := t / 60 % 60

/-- TimeLib `hour()` of an instant. -/
def hourOf (t : Nat) : Nat := t / 3600 % 24

/-- TimeLib `weekday()` of an instant (Sunday = 1; the epoch fell on a
Thursday, hence the +4). -/
def weekdayOf (t : Nat) : Nat := (t / 86400 + 4) % 7 + 1

/-- TimeLib `breakTime` calendar part: (year, month, day) of an
instant, month 1..12 and day 1..31, year as a calendar year. -/
def calendarOf (t : Nat) : Nat × Nat × Nat :=
  let days := t / 86400
  let (yr, rem) := findYear (days + 1) 0 days
  let (mo, d) := findMonth (leapYear yr) 12 0 rem
  (1970 + yr, mo + 1, d + 1)

/-- TimeLib `year()` of an instant. -/
def yearOf (t : Nat) : Nat := (calendarOf t).1

/-- TimeLib `month()` of an instant. -/
def monthOf (t : Nat) : Nat := (calendarOf t).2.1

/-- TimeLib `day()` of an instant. -/
def dayOf (t : Nat) : Nat := (calendarOf t).2.2

-- ==================== grid square calculator ====================

/-- `getGridSquare` of GPS_CLOCK_plus.ino (and, identically, of the
multi-screen variant): Maidenhead locator of a latitude/longitude.
The sketch's `float` arithmetic is modelled by exact rational
arithmetic; the C `int` casts of non-negative intermediate values are
`Rat.floor`.  The C code assigns all ten character cells and then
truncates the string by writing a NUL at index `len`, so the result is
the first `len` characters; when a guard fails (or `len = 0`) only the
leading NUL written at entry remains and the result is empty. -/
def getGridSquare (lat lon : ℚ) (len : Nat) : String :=
  let lon := lon + 180
  let lat := lat + 90
  if (lon < 0) || (lon > 360) then ""
  else if (lat < 0) || (lat > 180) then ""
  else if len > 10 then ""
  else
    let lon1 := Rat.floor (lon / 20)
    let r1 := lon - lon1 * 20
    let lon2 := Rat.floor (r1 / 2)
    let r2 := r1 - lon2 * 2
    let lon3 := Rat.floor (r2 * 12)
    let r3 := r2 - lon3 / 12
    let lon4 := Rat.floor (r3 * 120)
    let r4 := r3 - lon4 / 120
    let lon5 := Rat.floor (r4 * 2880)
    let lat1 := Rat.floor (lat / 10)
    let s1 := lat - lat1 * 10
    let lat2 := Rat.floor s1
    let s2 := s1 - lat2
    let lat3 := Rat.floor (s2 * 24)
    let s3 := s2 - lat3 / 24
    let lat4 := Rat.floor (s3 * 240)
    let s4 := s3 - lat4 / 240
    let lat5 := Rat.floor (s4 * 5760)
    let chars : List Char :=
      [Char.ofNat (65 + lon1.toNat), Char.ofNat (65 + lat1.toNat),
       Char.ofNat (48 + lon2.toNat), Char.ofNat (48 + lat2.toNat),
       Char.ofNat (97 + lon3.toNat), Char.ofNat (97 + lat3.toNat),
       Char.ofNat (48 + lon4.toNat), Char.ofNat (48 + lat4.toNat),
       Char.ofNat (65 + lon5.toNat), Char.ofNat (65 + lat5.toNat)]
    String.mk (chars.take len)

-- ==================== GPS decode events ====================

/-- One decoded GPS time/date event as the sketches read it from the
TinyGPSPlus object: validity flag and age (ms) of the time field, and
the six decoded clock/calendar fields. -/
structure GpsTime where
  valid : Bool
  age : Nat
  h : Nat
  m : Nat
  s : Nat
  d : Nat
  mo : Nat
  y : Nat

/-- The instant the Synchronizer builds from a decode event: TimeLib
`setTime(h,m,s,d,mo,y)` applied to the six decoded fields. -/
def decodedInstant (g : GpsTime) : Nat := makeTime g.h g.m g.s g.d g.mo g.y

-- ==================== status classification ====================

/-- The three confidence grades of the spec (FRESH = green, MARGINAL =
orange, STALE = red). -/
inductive ConfidenceGrade where
  | FRESH
  | MARGINAL
  | STALE
deriving DecidableEq, Repr

/-- The classification branch of `showClockStatus` (identical in all
variants): `syncAge = now()-lastSync`; green below SYNC_MARGINAL =
3600 s, orange below SYNC_LOST = 86400 s, red otherwise. -/
def classify (now lastSync : Int) : ConfidenceGrade :=
  let syncAge := now - lastSync
  if syncAge < 3600 then .FRESH
  else if syncAge < 86400 then .MARGINAL
  else .STALE

/-- The TFT color each grade is rendered with. -/
def gradeColor : ConfidenceGrade → Nat
  | .FRESH => TFT_GREEN
  | .MARGINAL => TFT_ORANGE
  | .STALE => TFT_RED

-- ==================== GPS_CLOCK_single.ino ====================

namespace Single

/-- GPS_CLOCK_single.ino compile-time defines. -/
def LEADING_ZERO : Bool := false

/-- The sketch's global mutable state: the TimeLib system clock
(`now()` reads `sysTime`; it is advanced by hardware ticks and set by
`setTime`), the displayed UTC/local instants `t`/`lt`, `lastSync`,
the pulse flag byte, the two display-mode flags, and the current
time-change-rule pointer `tz` (NULL until the first `toLocal` call
sets it, modelled as an `Option` of the zone abbreviation). -/
structure St where
  sysTime : Nat
  t : Nat
  lt : Nat
  lastSync : Nat
  pps : Nat
  use12hrFormat : Bool
  useLocalTime : Bool
  tzAbbrev : Option String
deriving DecidableEq

/-- TimeLib `setTime(h,m,s,d,mo,y)`: sets the system clock. -/
def setTime (st : St) (h m s d mo y : Nat) : St :=
  { st with sysTime := makeTime h m s d mo y }

/-- TimeLib `adjustTime`: offsets the system clock. -/
def adjustTime (st : St) (adjustment : Nat) : St :=
  { st with sysTime := st.sysTime + adjustment }

/-- `syncWithGPS` of GPS_CLOCK_single.ino: return unless the GPS time
field is valid; return if its age exceeds 1000 ms; otherwise set the
system time from the six decoded fields, adjust it forward 1 second,
and record `lastSync = now()`. -/
def syncWithGPS (st : St) (g : GpsTime) : St :=
  if !g.valid then st
  else if g.age > 1000 then st
  else
    let st1 := setTime st g.h g.m g.s g.d g.mo g.y
    let st2 := adjustTime st1 1
    { st2 with lastSync := st2.sysTime }

/-- `syncCheck` of GPS_CLOCK_single.ino: attempt the GPS sync when the
pulse flag is set or no pulse line is used (`USING_PPS` is a
compile-time define, kept as a parameter); clear the flag regardless. -/
def syncCheck (usingPPS : Bool) (st : St) (g : GpsTime) : St :=
  let st1 := if st.pps != 0 || !usingPPS then syncWithGPS st g else st
  { st1 with pps := 0 }

/-- Day-of-week strings of `showDate`. -/
def dayStrings : List String :=
  ["Sunday", "Monday", "Tuesday", "Wednesday", "Thursday", "Friday", "Saturday"]

/-- `showAMPM`: in 24-hour mode erase the AM/PM cell, otherwise draw
"AM" before noon and "PM" after. -/
def showAMPM (use12 : Bool) (hr : Nat) : List Draw :=
  if !use12 then [.fillRect TFT_BLACK]
  else if hr < 12 then [.str "AM"]
  else [.str "PM"]

/-- `showTime` of GPS_CLOCK_single.ino: the emitted draw calls for the
instant `t` (the '8' is drawn black-on-black to erase a stale leading
digit in 12-hour mode without LEADING_ZERO). -/
def showTime (st : St) (t : Nat) : List Draw :=
  let h := hourOf t
  let m := minuteOf t
  let s := secondOf t
  let ampm := showAMPM st.use12hrFormat h
  let h := if st.use12hrFormat then (if h == 0 then 12 else if h > 12 then h - 12 else h) else h
  let lead : List Draw :=
    if h < 10 then
      if !st.use12hrFormat || LEADING_ZERO then [.ch '0'] else [.ch '8']
    else []
  ampm ++ lead ++ [.num h, .ch ':']
    ++ (if m < 10 then [.ch '0'] else []) ++ [.num m, .ch ':']
    ++ (if s < 10 then [.ch '0'] else []) ++ [.num s]

/-- `showDate` of GPS_CLOCK_single.ino: erase the date area and draw
weekday, month/day/year. -/
def showDate (t : Nat) : List Draw :=
  [.fillRect TFT_BLACK, .str (dayStrings.getD (weekdayOf t - 1) ""), .str ", ",
   .num (monthOf t), .ch '/', .num (dayOf t), .ch '/', .num (yearOf t)]

/-- `showTimeZone` of GPS_CLOCK_single.ino: draw "UTC", or the active
rule's abbreviation when showing local time, or nothing while the rule
pointer is still NULL. -/
def showTimeZone (st : St) : List Draw :=
  if !st.useLocalTime then [.str "UTC"]
  else
    match st.tzAbbrev with
    | some ab => [.str ab]
    | none => []

/-- `showTimeDate` of GPS_CLOCK_single.ino: time always; zone when the
hour changed (or no previous instant); date when the day changed. -/
def showTimeDate (st : St) (t oldT : Nat) : List Draw :=
  showTime st t
    ++ (if oldT == 0 || hourOf t != hourOf oldT then showTimeZone st else [])
    ++ (if dayOf t != dayOf oldT then showDate t else [])

/-- `satCount` of GPS_CLOCK_single.ino: the satellite count when the
field is valid, else 0. -/
def satCount (valid : Bool) (value : Nat) : Nat :=
  if valid then value else 0

/-- `showSatellites`: erase the previous count and draw the new one. -/
def showSatellites (sats : Nat) : List Draw :=
  [.fillRect TFT_BLACK, .num sats]

/-- `showClockStatus` of GPS_CLOCK_single.ino: nothing while no time
was ever decoded (`!lastSync`); otherwise the status indicator in the
grade color, the minutes-since-sync text, and the satellite count. -/
def showClockStatus (st : St) (sats : Nat) : List Draw :=
  if st.lastSync == 0 then []
  else
    let syncAge : Int := (st.sysTime : Int) - (st.lastSync : Int)
    let color := gradeColor (classify st.sysTime st.lastSync)
    [.fillRoundRect color, .str (toString (Int.tdiv syncAge 60) ++ " min.")]
      ++ showSatellites sats

/-- `localTime` of GPS_CLOCK_single.ino: the unset value 0 while no
sync ever happened, otherwise `myTZ.toLocal(now(),&tz)`.  The Timezone
library collaborator is a parameter `tzc` giving the local instant and
the active rule's abbreviation (written through the `tz` pointer). -/
def localTime (tzc : Nat → Nat × String) (st : St) : Nat × St :=
  if st.lastSync == 0 then (0, st)
  else
    let r := tzc st.sysTime
    (r.1, { st with tzAbbrev := some r.2 })

/-- `updateDisplay` of GPS_CLOCK_single.ino: on a new whole second,
refresh the local time, draw time/date (local or UTC), draw the clock
status on minute changes, and remember the displayed instants. -/
def updateDisplay (tzc : Nat → Nat × String) (st : St) (sats : Nat) : St × List Draw :=
  let utc := st.sysTime
  if st.t == utc then (st, [])
  else
    let p := localTime tzc st
    let st1 := p.2
    let d1 := if st1.useLocalTime then showTimeDate st1 p.1 st1.lt
              else showTimeDate st1 utc st1.t
    let d2 := if minuteOf utc != minuteOf st1.t then showClockStatus st1 sats else []
    ({ st1 with lt := p.1, t := utc }, d1 ++ d2)

/-- Touch regions of GPS_CLOCK_single.ino. -/
def rPM : Region := ⟨240, 70, 70, 40⟩

/-- Time-zone touch region of GPS_CLOCK_single.ino. -/
def rTZ : Region := ⟨240, 30, 70, 40⟩

/-- Time touch region of GPS_CLOCK_single.ino. -/
def rTime : Region := ⟨20, 50, 200, 140⟩

/-- `checkTouchTZ` of GPS_CLOCK_single.ino: when the touch hits the TZ
region, toggle the local/UTC flag, overwrite the 12/24-hour flag with
the new value ("local time is 12hr; UTC is 24hr"), and redraw. -/
def checkTouchTZ (st : St) (x y : Int) : St × List Draw :=
  if !inRegion rTZ x y then (st, [])
  else
    let st1 := { st with useLocalTime := !st.useLocalTime,
                         use12hrFormat := !st.useLocalTime }
    (st1, if st1.useLocalTime then showTimeDate st1 st1.lt 0 else showTimeDate st1 st1.t 0)

end Single

-- ==================== GPS_CLOCK_plus.ino ====================

namespace Plus

/-- GPS_CLOCK_plus.ino compile-time define GRID_SQUARE_SIZE. -/
def GRID_SQUARE_SIZE : Nat := 6

/-- Global mutable state of GPS_CLOCK_plus.ino: the TimeLib system
clock, the latest/displayed UTC and local instants, `lastSync`, the
pulse flag, and the cached grid-square string. -/
structure St where
  sysTime : Nat
  t : Nat
  oldT : Nat
  lt : Nat
  oldLt : Nat
  lastSync : Nat
  pps : Nat
  gridSquare : String
deriving DecidableEq

/-- `syncWithGPS` of GPS_CLOCK_plus.ino: return unless the time field
is valid; read the six fields and the age; only when the age is below
1000 ms, set the system time, adjust it forward 1 second and record
`lastSync = now()`. -/
def syncWithGPS (st : St) (g : GpsTime) : St :=
  if !g.valid then st
  else if g.age < 1000 then
    let st1 := { st with sysTime := makeTime g.h g.m g.s g.d g.mo g.y }
    let st2 := { st1 with sysTime := st1.sysTime + 1 }
    { st2 with lastSync := st2.sysTime }
  else st

/-- `satCount` of GPS_CLOCK_plus.ino: the satellite count when the
field is younger than 10 s, else 0. -/
def satCount (age value : Nat) : Nat :=
  if age < 10000 then value else 0

/-- `showGridSquare` of GPS_CLOCK_plus.ino: nothing without a fix;
otherwise recompute the grid square and, when it changed, update the
cached copy, erase the cell and draw the new square. -/
def showGridSquare (st : St) (locValid : Bool) (lat lon : ℚ) : St × List Draw :=
  if !locValid then (st, [])
  else
    let gs := getGridSquare lat lon GRID_SQUARE_SIZE
    if gs != st.gridSquare then
      ({ st with gridSquare := gs }, [.fillRect TFT_BLUE, .str gs])
    else (st, [])

/-- `showClockStatus` of GPS_CLOCK_plus.ino: only on 10-second
boundaries; the status roundel in the grade color of
`syncAge = now()-lastSync` (with no unset-`lastSync` guard), the
satellite count, then the grid square. -/
def showClockStatus (st : St) (satAge satValue : Nat) (locValid : Bool) (lat lon : ℚ) :
    St × List Draw :=
  if secondOf st.sysTime % 10 != 0 then (st, [])
  else
    let color := gradeColor (classify st.sysTime st.lastSync)
    let p := showGridSquare st locValid lat lon
    (p.1, ([.fillRoundRect color, .num (satCount satAge satValue)] : List Draw) ++ p.2)

end Plus

-- ==================== multi-screen variant (src/unnamed/part_003) ====================

namespace Multi

/-- Multi-screen variant compile-time define. -/
def SHOW_LOCAL_TIME : Bool := true

/-- The dispatcher-relevant global state of the multi-screen variant:
the active screen (0 = time, 1 = dual time, 2 = location), the cached
"last displayed" instants `oldT`/`oldLt`, and the display-mode flags. -/
structure St where
  screenID : Nat
  oldT : Nat
  oldLt : Nat
  use12hrFormat : Bool
  useLocalTime : Bool
deriving DecidableEq

/-- AM/PM touch region of the multi-screen variant. -/
def rPM : Region := ⟨240, 100, 70, 40⟩

/-- Time-zone touch region of the multi-screen variant. -/
def rTZ : Region := ⟨240, 60, 70, 40⟩

/-- Time touch region of the multi-screen variant. -/
def rTime : Region := ⟨20, 50, 200, 140⟩

/-- Location touch region of the multi-screen variant. -/
def rLocn : Region := ⟨180, 165, 140, 80⟩

/-- `newScreen` of the multi-screen variant: reset both cached
displayed instants to force a full redraw, then draw the screen for
the current `screenID`; the `timeScreen` branch (screen 0) also resets
`useLocalTime` to the startup preference, the other branches only
draw. -/
def newScreen (st : St) : St :=
  let st1 := { st with oldT := 0, oldLt := 0 }
  match st1.screenID with
  | 1 => st1
  | 2 => st1
  | _ => { st1 with useLocalTime := SHOW_LOCAL_TIME }

/-- `touchedTime` of the multi-screen variant: switch to the dual-time
screen. -/
def touchedTime (st : St) : St :=
  newScreen { st with screenID := 1 }

/-- `touchedLocation` of the multi-screen variant: switch to the
location screen. -/
def touchedLocation (st : St) : St :=
  newScreen { st with screenID := 2 }

/-- `touchedPM` of the multi-screen variant: toggle the 12/24-hour
flag (and redraw the time). -/
def touchedPM (st : St) : St :=
  { st with use12hrFormat := !st.use12hrFormat }

/-- `touchedTZ` of the multi-screen variant: toggle the local/UTC
flag and overwrite the 12/24-hour flag with the new value ("local
time is 12hr; UTC is 24hr"), then redraw. -/
def touchedTZ (st : St) : St :=
  { st with useLocalTime := !st.useLocalTime,
            use12hrFormat := !st.useLocalTime }

/-- The dispatch body of `checkForTouch` of the multi-screen variant,
given a registered touch at (x, y): any touch on a non-zero screen
returns to screen 0 via `newScreen`; on screen 0 the regions are tried
in source order.  (Touch sampling and the 300 ms debounce delay are
hardware I/O around this dispatch.) -/
def handleTouch (st : St) (x y : Int) : St :=
  if st.screenID != 0 then newScreen { st with screenID := 0 }
  else if inRegion rTime x y then touchedTime st
  else if inRegion rLocn x y then touchedLocation st
  else if inRegion rPM x y then touchedPM st
  else if inRegion rTZ x y then touchedTZ st
  else st

end Multi

-- ==================== theorems ====================

/-- Claim C1: for every GPS decode event whose time field is valid and
whose age is strictly below 1000 ms, arriving when sync is permitted
(in pulse mode the pulse flag is set; otherwise unconditionally), the
sync pass sets the system TimeBase to the decoded instant advanced by
exactly one second and records `lastSync` as that same value. -/
theorem syncWithGPS_fresh_sets_timebase (usingPPS : Bool) (st : Single.St) (g : GpsTime)
    (hv : g.valid = true) (ha : g.age < 1000)
    (hp : usingPPS = false ∨ st.pps ≠ 0) :
    (Single.syncCheck usingPPS st g).sysTime = decodedInstant g + 1 ∧
    (Single.syncCheck usingPPS st g).lastSync = decodedInstant g + 1 := by
  have hcond : (st.pps != 0 || !usingPPS) = true := by
    rcases hp with h | h
    · simp [h]
    · simp [h]
  have hage : ¬ (g.age > 1000) := by omega
  unfold Single.syncCheck Single.syncWithGPS Single.setTime Single.adjustTime
  rw [hcond]
  simp [hv, hage, decodedInstant]

/-- Witness for C1: a concrete fresh decode (age 500 ms) with the pulse
flag set is accepted and sets both values to the decoded instant + 1. -/
theorem syncWithGPS_fresh_sets_timebase_witness :
    (GpsTime.mk true 500 12 34 56 3 4 2021).valid = true ∧ 500 < 1000 ∧
    ((Single.syncCheck true (Single.St.mk 0 0 0 0 1 true true none)
        (GpsTime.mk true 500 12 34 56 3 4 2021)).sysTime
      = decodedInstant (GpsTime.mk true 500 12 34 56 3 4 2021) + 1 ∧
     (Single.syncCheck true (Single.St.mk 0 0 0 0 1 true true none)
        (GpsTime.mk true 500 12 34 56 3 4 2021)).lastSync
      = decodedInstant (GpsTime.mk true 500 12 34 56 3 4 2021) + 1) :=
  ⟨rfl, by decide,
   syncWithGPS_fresh_sets_timebase true (Single.St.mk 0 0 0 0 1 true true none)
     (GpsTime.mk true 500 12 34 56 3 4 2021) rfl (by decide) (Or.inr (by decide))⟩

/-- Claim C2 (amended): a decode event with an invalid time field
leaves the state of either variant unchanged, and a stale event leaves
the state unchanged where "stale" is age > 1000 ms for the single
variant but age ≥ 1000 ms for the plus variant; rejection is a plain
early return, so the whole state is returned untouched. -/
theorem syncWithGPS_reject_frame (stS : Single.St) (stP : Plus.St) (g : GpsTime) :
    (g.valid = false → Single.syncWithGPS stS g = stS ∧ Plus.syncWithGPS stP g = stP) ∧
    (g.age > 1000 → Single.syncWithGPS stS g = stS) ∧
    (g.age ≥ 1000 → Plus.syncWithGPS stP g = stP) := by
  refine ⟨fun hv => ?_, fun ha => ?_, fun ha => ?_⟩
  · unfold Single.syncWithGPS Plus.syncWithGPS
    simp [hv]
  · unfold Single.syncWithGPS
    split_ifs with h1 <;> rfl
  · unfold Plus.syncWithGPS
    have h2 : ¬ (g.age < 1000) := by omega
    split_ifs with h1 <;> rfl

/-- Witness for the amended C2: a valid decode of age 1001 ms is
rejected by the single variant and one of age 1000 ms by the plus
variant. -/
theorem syncWithGPS_reject_frame_witness :
    ((GpsTime.mk true 1001 0 0 0 1 1 2021).age > 1000 ∧
      Single.syncWithGPS (Single.St.mk 7 1 2 3 0 true true none)
        (GpsTime.mk true 1001 0 0 0 1 1 2021) = Single.St.mk 7 1 2 3 0 true true none) ∧
    ((GpsTime.mk true 1000 0 0 0 1 1 2021).age ≥ 1000 ∧
      Plus.syncWithGPS (Plus.St.mk 7 1 2 3 4 5 0 "EM79")
        (GpsTime.mk true 1000 0 0 0 1 1 2021) = Plus.St.mk 7 1 2 3 4 5 0 "EM79") :=
  ⟨⟨by decide,
    (syncWithGPS_reject_frame (Single.St.mk 7 1 2 3 0 true true none)
      (Plus.St.mk 7 1 2 3 4 5 0 "EM79") (GpsTime.mk true 1001 0 0 0 1 1 2021)).2.1
      (by decide)⟩,
   ⟨by decide,
    (syncWithGPS_reject_frame (Single.St.mk 7 1 2 3 0 true true none)
      (Plus.St.mk 7 1 2 3 4 5 0 "EM79") (GpsTime.mk true 1000 0 0 0 1 1 2021)).2.2
      (by decide)⟩⟩

/-- Counterexample for C2 as stated: in the single variant a valid
decode event of age exactly 1000 ms (≥ 1000) is NOT rejected — it
changes `lastSync` (and the TimeBase). -/
theorem syncWithGPS_age_exact_1000_syncs :
    (Single.syncWithGPS (Single.St.mk 0 0 0 0 0 true true none)
        (GpsTime.mk true 1000 0 0 0 1 1 2021)).lastSync
      ≠ (Single.St.mk 0 0 0 0 0 true true none).lastSync := by decide

/-- Claim C3 (amended): with an unset time base (`lastSync = 0`) the
status display (`showClockStatus`) suppresses its output and
`localTime` yields the unset value 0, but the time display has no such
guard: `updateDisplay` still renders the time — at the concrete unset
state one second after power-up it draws "AM 12:00:00", the 12-hour
rendering of the unset local instant 0. -/
theorem unset_timebase_partial_suppression (tzc : Nat → Nat × String)
    (st : Single.St) (sats : Nat) (h : st.lastSync = 0) :
    Single.showClockStatus st sats = [] ∧
    (Single.localTime tzc st).1 = 0 ∧
    (Single.updateDisplay (fun u => (u, "EDT")) (Single.St.mk 1 0 0 0 0 true true none) 0).2 =
      [.str "AM", .num 12, .ch ':', .ch '0', .num 0, .ch ':', .ch '0', .num 0] := by
  refine ⟨?_, ?_, ?_⟩
  · unfold Single.showClockStatus
    simp [h]
  · unfold Single.localTime
    simp [h]
  · decide

/-- Witness for the amended C3: the data of the concrete unset state. -/
theorem unset_timebase_partial_suppression_witness :
    (Single.St.mk 1 0 0 0 0 true true none).lastSync = 0 ∧
    Single.showClockStatus (Single.St.mk 1 0 0 0 0 true true none) 0 = [] ∧
    (Single.localTime (fun u => (u, "EDT")) (Single.St.mk 1 0 0 0 0 true true none)).1 = 0 :=
  ⟨rfl,
   (unset_timebase_partial_suppression (fun u => (u, "EDT"))
      (Single.St.mk 1 0 0 0 0 true true none) 0 rfl).1,
   (unset_timebase_partial_suppression (fun u => (u, "EDT"))
      (Single.St.mk 1 0 0 0 0 true true none) 0 rfl).2.1⟩

/-- Counterexample for C3 as stated: one second after power-up, with no
sync ever (`lastSync = 0`), `updateDisplay` emits a non-empty list of
time draw calls — the time display routine does not suppress output on
an unset time base. -/
theorem unset_timebase_still_renders :
    (Single.updateDisplay (fun u => (u, "EDT")) (Single.St.mk 1 0 0 0 0 true true none) 0).2
      ≠ [] := by decide

/-- Claim C4: with a set `lastSync` and a non-negative age, the status
classification is FRESH exactly below 3600 s, MARGINAL exactly in
[3600, 86400), STALE exactly from 86400 s on; in particular ages 1800,
7200 and 90000 classify as FRESH, MARGINAL and STALE respectively. -/
theorem classify_thresholds (now lastSync : Int) (h : 0 ≤ now - lastSync) :
    ((classify now lastSync = .FRESH ↔ now - lastSync < 3600) ∧
     (classify now lastSync = .MARGINAL ↔ 3600 ≤ now - lastSync ∧ now - lastSync < 86400) ∧
     (classify now lastSync = .STALE ↔ 86400 ≤ now - lastSync)) ∧
    classify now (now - 1800) = .FRESH ∧
    classify now (now - 7200) = .MARGINAL ∧
    classify now (now - 90000) = .STALE := by
  have e1 : now - (now - 1800) = (1800 : Int) := by omega
  have e2 : now - (now - 7200) = (7200 : Int) := by omega
  have e3 : now - (now - 90000) = (90000 : Int) := by omega
  refine ⟨?_, ?_, ?_, ?_⟩
  · simp only [classify]
    split_ifs with h1 h2 <;> simp_all <;> omega
  · simp only [classify]
    rw [e1]
    norm_num
  · simp only [classify]
    rw [e2]
    norm_num
  · simp only [classify]
    rw [e3]
    norm_num

/-- Witness for C4: age 4000 s (now 5000, lastSync 1000) classifies as
MARGINAL. -/
theorem classify_thresholds_witness :
    (0 : Int) ≤ 5000 - 1000 ∧ classify 5000 1000 = .MARGINAL :=
  ⟨by decide, (classify_thresholds 5000 1000 (by decide)).1.2.1.mpr (by decide)⟩

/-- Claim C5 (amended): the single variant's `showClockStatus`
suppresses the confidence-grade display entirely while `lastSync` is
unset; the plus variant's `showClockStatus` has no unset guard — on a
10-second boundary it renders the ordinary grade of
`age = now - 0`, so an unset state within the first hour after
power-up is rendered identically to a freshly synced (FRESH) state. -/
theorem clockStatus_unset_guard (stS : Single.St) (stP : Plus.St)
    (sats satAge satValue : Nat) (locValid : Bool) (lat lon : ℚ)
    (hS : stS.lastSync = 0) (hP : stP.lastSync = 0)
    (hsec : secondOf stP.sysTime % 10 = 0) (hfresh : (stP.sysTime : Int) < 3600) :
    Single.showClockStatus stS sats = [] ∧
    (Plus.showClockStatus stP satAge satValue locValid lat lon).2 =
      (Plus.showClockStatus { stP with lastSync := stP.sysTime }
        satAge satValue locValid lat lon).2 := by
  have hA : classify (stP.sysTime : Int) ((stP.lastSync : Nat) : Int) = .FRESH := by
    simp only [classify, hP]
    rw [if_pos (by push_cast; omega)]
  have hB : classify (stP.sysTime : Int) ((stP.sysTime : Nat) : Int) = .FRESH := by
    simp only [classify]
    rw [if_pos (by omega)]
  refine ⟨?_, ?_⟩
  · unfold Single.showClockStatus
    simp [hS]
  · have hgs : (Plus.showGridSquare { stP with lastSync := stP.sysTime } locValid lat lon).2
        = (Plus.showGridSquare stP locValid lat lon).2 := by
      unfold Plus.showGridSquare
      cases locValid
      · rfl
      · simp only [show ({ stP with lastSync := stP.sysTime } : Plus.St).gridSquare
            = stP.gridSquare from rfl]
        split_ifs <;> rfl
    have hc : (secondOf stP.sysTime % 10 != 0) = false := by simp [hsec]
    unfold Plus.showClockStatus
    simp only [hA, hB, hc, hgs, Bool.false_eq_true, if_false]

/-- Witness for the amended C5: concrete unset states 100 s after
power-up; the single variant suppresses, the plus variant renders the
unset state exactly as it renders the freshly synced state. -/
theorem clockStatus_unset_guard_witness :
    ((Single.St.mk 1 0 0 0 0 true true none).lastSync = 0 ∧
     (Plus.St.mk 100 0 0 0 0 0 0 "").lastSync = 0 ∧
     secondOf (Plus.St.mk 100 0 0 0 0 0 0 "").sysTime % 10 = 0 ∧
     ((Plus.St.mk 100 0 0 0 0 0 0 "").sysTime : Int) < 3600) ∧
    (Single.showClockStatus (Single.St.mk 1 0 0 0 0 true true none) 0 = [] ∧
     (Plus.showClockStatus (Plus.St.mk 100 0 0 0 0 0 0 "") 20000 5 false 0 0).2 =
       (Plus.showClockStatus (Plus.St.mk 100 0 0 0 0 100 0 "") 20000 5 false 0 0).2) :=
  ⟨⟨rfl, rfl, by decide, by decide⟩,
   clockStatus_unset_guard (Single.St.mk 1 0 0 0 0 true true none)
     (Plus.St.mk 100 0 0 0 0 0 0 "") 0 20000 5 false 0 0 rfl rfl (by decide) (by decide)⟩

/-- Counterexample for C5 as stated: in the plus variant an
unset-sync state (`lastSync = 0`, 100 s after power-up) is not
suppressed — it emits the very same draw calls (green FRESH roundel,
satellite count) as the state that synced at second 100. -/
theorem clockStatus_unset_rendered_fresh :
    (Plus.showClockStatus (Plus.St.mk 100 0 0 0 0 0 0 "") 20000 5 false 0 0).2 ≠ [] ∧
    (Plus.showClockStatus (Plus.St.mk 100 0 0 0 0 0 0 "") 20000 5 false 0 0).2 =
      (Plus.showClockStatus (Plus.St.mk 100 0 0 0 0 100 0 "") 20000 5 false 0 0).2 := by
  constructor
  · decide
  · decide

/-- Claim C6: in the multi-screen dispatcher, a touch on the primary
screen inside the time region switches to the dual-time screen, a
touch anywhere on a non-primary screen returns to the primary screen,
and both transitions reset the cached displayed instants `oldT` and
`oldLt` to unset (0), forcing a full redraw. -/
theorem handleTouch_transitions (st : Multi.St) (x y : Int) :
    (st.screenID = 0 → inRegion Multi.rTime x y = true →
      (Multi.handleTouch st x y).screenID = 1 ∧
      (Multi.handleTouch st x y).oldT = 0 ∧ (Multi.handleTouch st x y).oldLt = 0) ∧
    (st.screenID ≠ 0 →
      (Multi.handleTouch st x y).screenID = 0 ∧
      (Multi.handleTouch st x y).oldT = 0 ∧ (Multi.handleTouch st x y).oldLt = 0) := by
  constructor
  · intro h0 hin
    unfold Multi.handleTouch
    simp [h0, hin, Multi.touchedTime, Multi.newScreen]
  · intro h0
    have hb : (st.screenID != 0) = true := by simpa using h0
    unfold Multi.handleTouch
    simp [hb, Multi.newScreen]

/-- Witness for C6: from the primary screen a touch at (100, 100) —
inside the time region — reaches the dual-time screen with both cached
instants reset. -/
theorem handleTouch_transitions_witness :
    ((Multi.St.mk 0 5 7 true true).screenID = 0 ∧
      inRegion Multi.rTime 100 100 = true) ∧
    ((Multi.handleTouch (Multi.St.mk 0 5 7 true true) 100 100).screenID = 1 ∧
     (Multi.handleTouch (Multi.St.mk 0 5 7 true true) 100 100).oldT = 0 ∧
     (Multi.handleTouch (Multi.St.mk 0 5 7 true true) 100 100).oldLt = 0) :=
  ⟨⟨rfl, by decide⟩,
   (handleTouch_transitions (Multi.St.mk 0 5 7 true true) 100 100).1 rfl (by decide)⟩

/-- Claim C9: the touch-region containment test is inclusive at both
boundary edges — it returns true exactly when x0 ≤ px ≤ x0+w and
y0 ≤ py ≤ y0+h, so both corner points (x0, y0) and (x0+w, y0+h) count
as inside. -/
theorem inRegion_inclusive_bounds (b : Region) (px py : Int)
    (hw : 0 ≤ b.w) (hh : 0 ≤ b.h) :
    (inRegion b px py = true ↔
      b.x ≤ px ∧ px ≤ b.x + b.w ∧ b.y ≤ py ∧ py ≤ b.y + b.h) ∧
    inRegion b b.x b.y = true ∧
    inRegion b (b.x + b.w) (b.y + b.h) = true := by
  unfold inRegion
  refine ⟨?_, ?_, ?_⟩ <;> split_ifs <;> simp_all <;> omega

/-- Witness for C9: in the single variant's actual time region both
corners test as inside, and (100, 60) tests as inside via the
inclusive-bounds characterisation. -/
theorem inRegion_inclusive_bounds_witness :
    (0 ≤ Single.rTime.w ∧ 0 ≤ Single.rTime.h) ∧
    (inRegion Single.rTime 100 60 = true ↔
      Single.rTime.x ≤ 100 ∧ 100 ≤ Single.rTime.x + Single.rTime.w ∧
      Single.rTime.y ≤ 60 ∧ 60 ≤ Single.rTime.y + Single.rTime.h) ∧
    inRegion Single.rTime Single.rTime.x Single.rTime.y = true ∧
    inRegion Single.rTime (Single.rTime.x + Single.rTime.w)
      (Single.rTime.y + Single.rTime.h) = true :=
  ⟨⟨by decide, by decide⟩,
   inRegion_inclusive_bounds Single.rTime 100 60 (by decide) (by decide)⟩

/-- Claim C7: the grid locator yields the empty string whenever the
shifted longitude lon+180 is outside [0,360], or the shifted latitude
lat+90 is outside [0,180], or the requested length exceeds 10; for
valid coordinates length 0 also yields the empty string; in particular
locate(91, 0, 6) is empty. -/
theorem getGridSquare_invalid_empty (lat lon : ℚ) (len : Nat) :
    ((lon + 180 < 0 ∨ lon + 180 > 360 ∨ lat + 90 < 0 ∨ lat + 90 > 180 ∨ len > 10) →
      getGridSquare lat lon len = "") ∧
    (-90 ≤ lat → lat ≤ 90 → -180 ≤ lon → lon ≤ 180 → getGridSquare lat lon 0 = "") ∧
    getGridSquare 91 0 6 = "" := by
  refine ⟨?_, ?_, ?_⟩
  · intro h
    simp only [getGridSquare]
    split_ifs with h1 h2 h3
    · rfl
    · rfl
    · rfl
    · exfalso
      simp only [Bool.or_eq_true, decide_eq_true_eq, not_or] at h1 h2
      rcases h with h | h | h | h | h
      · exact h1.1 h
      · exact h1.2 h
      · exact h2.1 h
      · exact h2.2 h
      · exact h3 h
  · intro _ _ _ _
    simp only [getGridSquare]
    split_ifs
    · rfl
    · rfl
    · rfl
    · rfl
  · with_unfolding_all decide

/-- Witness for C7: length 11 (> 10) yields the empty string at the
origin, and length 0 yields the empty string at valid coordinates. -/
theorem getGridSquare_invalid_empty_witness :
    (11 > 10 ∧ getGridSquare 0 0 11 = "") ∧
    ((-90 : ℚ) ≤ 0 ∧ (0 : ℚ) ≤ 90 ∧ (-180 : ℚ) ≤ 0 ∧ (0 : ℚ) ≤ 180 ∧
      getGridSquare 0 0 0 = "") :=
  ⟨⟨by decide,
    (getGridSquare_invalid_empty 0 0 11).1
      (Or.inr (Or.inr (Or.inr (Or.inr (by decide)))))⟩,
   ⟨by norm_num, by norm_num, by norm_num, by norm_num,
    (getGridSquare_invalid_empty 0 0 0).2.1
      (by norm_num) (by norm_num) (by norm_num) (by norm_num)⟩⟩

/-- Claim C8: the grid locator is a pure deterministic function, and
for coordinates in range and a requested length in the contract's
domain with length ≥ 2 the first output character is 'A' (65) plus
⌊(lon+180)/20⌋ and the second is 'A' plus ⌊(lat+90)/10⌋; in
particular locate(0, 0, 10) is the fixed string "JJ00aa00AA". -/
theorem getGridSquare_leading_chars (lat lon : ℚ) (len : Nat)
    (hlat1 : -90 ≤ lat) (hlat2 : lat ≤ 90) (hlon1 : -180 ≤ lon) (hlon2 : lon ≤ 180)
    (hlen1 : 2 ≤ len) (hlen2 : len ≤ 10) :
    (getGridSquare lat lon len).data[0]? =
      some (Char.ofNat (65 + (Rat.floor ((lon + 180) / 20)).toNat)) ∧
    (getGridSquare lat lon len).data[1]? =
      some (Char.ofNat (65 + (Rat.floor ((lat + 90) / 10)).toNat)) ∧
    getGridSquare lat lon len = getGridSquare lat lon len ∧
    getGridSquare 0 0 10 = "JJ00aa00AA" := by
  obtain ⟨k, rfl⟩ : ∃ k, len = k + 2 := ⟨len - 2, by omega⟩
  have hA : ¬ ((lon + 180 < 0 || lon + 180 > 360) = true) := by
    simp only [Bool.or_eq_true, decide_eq_true_eq, not_or]
    constructor <;> linarith
  have hB : ¬ ((lat + 90 < 0 || lat + 90 > 180) = true) := by
    simp only [Bool.or_eq_true, decide_eq_true_eq, not_or]
    constructor <;> linarith
  have hC : ¬ (k + 2 > 10) := by omega
  refine ⟨?_, ?_, rfl, by with_unfolding_all decide⟩
  · simp only [getGridSquare]
    rw [if_neg hA, if_neg hB, if_neg hC]
    rfl
  · simp only [getGridSquare]
    rw [if_neg hA, if_neg hB, if_neg hC]
    simp [List.take_succ_cons]

/-- Witness for C8: at the origin with length 10 the leading
characters are both 'J' and the full output is "JJ00aa00AA". -/
theorem getGridSquare_leading_chars_witness :
    ((-90 : ℚ) ≤ 0 ∧ (0 : ℚ) ≤ 90 ∧ (-180 : ℚ) ≤ 0 ∧ (0 : ℚ) ≤ 180 ∧ 2 ≤ 10 ∧ 10 ≤ 10) ∧
    getGridSquare 0 0 10 = "JJ00aa00AA" :=
  ⟨⟨by norm_num, by norm_num, by norm_num, by norm_num, by decide, by decide⟩,
   (getGridSquare_leading_chars 0 0 10 (by norm_num) (by norm_num) (by norm_num)
      (by norm_num) (by decide) (by decide)).2.2.2⟩

/-- Claim C10: a touch handled in the time-zone region toggles the
local/UTC flag and overwrites the 12/24-hour flag with the new value
(local ⇒ 12-hour, UTC ⇒ 24-hour), regardless of the previously chosen
12/24-hour preference — in the single variant's `checkTouchTZ` and the
multi-screen variant's `touchedTZ` alike. -/
theorem touchTZ_overwrites_format (stS : Single.St) (stM : Multi.St) (x y : Int)
    (h : inRegion Single.rTZ x y = true) :
    ((Single.checkTouchTZ stS x y).1.useLocalTime = !stS.useLocalTime ∧
     (Single.checkTouchTZ stS x y).1.use12hrFormat = !stS.useLocalTime) ∧
    ((Multi.touchedTZ stM).useLocalTime = !stM.useLocalTime ∧
     (Multi.touchedTZ stM).use12hrFormat = !stM.useLocalTime) := by
  unfold Single.checkTouchTZ Multi.touchedTZ
  simp [h]

/-- Witness for C10: the point (250, 40) lies in the single variant's
TZ region; from local/12-hour mode the touch switches to UTC/24-hour
mode. -/
theorem touchTZ_overwrites_format_witness :
    inRegion Single.rTZ 250 40 = true ∧
    ((Single.checkTouchTZ (Single.St.mk 0 0 0 0 0 true true none) 250 40).1.useLocalTime
        = !true ∧
     (Single.checkTouchTZ (Single.St.mk 0 0 0 0 0 true true none) 250 40).1.use12hrFormat
        = !true) :=
  ⟨by decide,
   (touchTZ_overwrites_format (Single.St.mk 0 0 0 0 0 true true none)
     (Multi.St.mk 0 0 0 true true) 250 40 (by decide)).1⟩
